import Mathlib

/-!
# Verification of the submission statistics cache and ranking engine

A shallow embedding, in Lean 4, of the statistics/caching core of an
online-judge web application:

* `judge/utils/problems.py` — the ID-set cache queries
  (`user_completed_ids`, `contest_completed_ids`), the result
  distribution aggregator (`get_result_data`, `add_to_result_data`) and
  the hot-problem ranking engine (`hot_problems`);
* `judge/admin.py` — the permission-gated batch actions
  `SubmissionAdmin.judge` (rejudge) and
  `SubmissionAdmin.recalculate_score` (rescore).

Database querysets are embedded as Lean lists, ORM filters as list
filters, the shared key-value cache as explicit state, and the
event-poster as an event list.  Numeric fields (`points`, `case_points`,
`case_total`, `ac_rate`) are embedded as rationals; SQL division by zero
(which the source does not guard in `hot_problems`) is made explicit by
an `Option` score.  Cache keys, built in the source with format strings
such as `user_complete:%d`, are embedded as an inductive type with one
constructor per format string (the prefixes are pairwise distinct, so
the key spaces are disjoint).
-/

namespace OnlineJudge

/-- A problem row (`judge.models.Problem`), restricted to the fields the
statistics core reads: `id`, `points` (maximum achievable points),
`partial` (whether partial credit is allowed — renamed `partialCredit`
here), `ac_rate`, the visibility flags and the author profile ids. -/
structure Problem where
  id : Nat
  points : ℚ
  partialCredit : Bool
  ac_rate : ℚ
  is_public : Bool
  is_organization_private : Bool
  authors : List Nat
deriving DecidableEq

/-- A submission row (`judge.models.Submission`), with its problem
denormalized in place of the foreign key.  `result` is `none` for a
pending (NULL) verdict.  `date` is a timestamp. -/
structure Submission where
  id : Nat
  userId : Nat
  problem : Problem
  result : Option String
  points : ℚ
  case_points : ℚ
  case_total : ℚ
  date : Int
deriving DecidableEq

/-- A contest submission row as seen by `contest_completed_ids`: it
carries its participation id, the linked judge submission's result
(`submission__result`), its own contest-scoped `points`, and the contest
problem's maximum points (`problem__points`) together with the
underlying problem id (`problem__problem__id`). -/
structure ContestSubmission where
  participationId : Nat
  result : Option String
  points : ℚ
  problemPoints : ℚ
  problemId : Nat
deriving DecidableEq

/-- Cache keys.  The source builds string keys from format strings; one
constructor per format, in source order of appearance:
`contest_complete:%d`, `user_complete:%d`, `contest_attempted:%s`,
`user_attempted:%s`, `global_submission_result_data`,
`hot_problems:%d:%d`. -/
inductive CacheKey where
  | contestComplete (participationId : Nat)
  | userComplete (profileId : Nat)
  | contestAttempted (participationId : Nat)
  | userAttempted (profileId : Nat)
  | globalResultData
  | hotProblems (durationSeconds : Int) (limit : Nat)
deriving DecidableEq

/-! ## ID-set cache queries (`judge/utils/problems.py`, lines 29–46)

The cache-miss computation of the read-through caches.  The source
wraps each in `cache.get`/`cache.set` with TTL 86400; the query itself
is what the correctness claims are about. -/

/-- `user_completed_ids` (lines 39–46), the cache-miss query:
`Submission.objects.filter(user=profile, result='AC',
points=F('problem__points')).values_list('problem_id',
flat=True).distinct()`, collected into a set. -/
def user_completed_ids (profile : Nat) (subs : List Submission) : List Nat :=
  ((subs.filter (fun s =>
      decide (s.userId = profile ∧ s.result = some "AC" ∧ s.points = s.problem.points))).map
    (fun s => s.problem.id)).dedup

/-- `contest_completed_ids` (lines 29–36), the cache-miss query:
`participation.submissions.filter(submission__result='AC',
points=F('problem__points')).values_list('problem__problem__id',
flat=True).distinct()`, collected into a set. -/
def contest_completed_ids (participation : Nat) (csubs : List ContestSubmission) : List Nat :=
  ((csubs.filter (fun cs =>
      decide (cs.participationId = participation ∧ cs.result = some "AC" ∧
        cs.points = cs.problemPoints))).map
    (fun cs => cs.problemId)).dedup

/-! ## Result distribution aggregator (`judge/utils/problems.py`, lines 75–131) -/

/-- `ResultType = namedtuple('ResultType', 'code name results')` (line 75). -/
structure ResultType where
  code : String
  name : String
  results : List String
deriving DecidableEq

/-- `RESULT_TYPES` (lines 79–85): the fixed result taxonomy, in declared
order. -/
def RESULT_TYPES : List ResultType :=
  [⟨"AC", "Accepted", ["AC"]⟩,
   ⟨"WA", "Wrong", ["WA"]⟩,
   ⟨"CE", "Compile Error", ["CE"]⟩,
   ⟨"TLE", "Timeout", ["TLE"]⟩,
   ⟨"ERR", "Error", ["MLE", "OLE", "IR", "RTE", "AB", "IE"]⟩]

/-- `RESULT_TO_TYPE` (line 87) as a lookup: the category code of a raw
result code, `none` when the code belongs to no category.  Each raw code
occurs in at most one category, so first-match lookup equals the dict. -/
def RESULT_TO_TYPE? (r : String) : Option String :=
  (RESULT_TYPES.find? (fun t => t.results.contains r)).map (fun t => t.code)

/-- Lookup lifted to a nullable result column: a NULL (pending) verdict
is in no category (`result not in RESULT_TO_TYPE` is true for `None`). -/
def resultType? : Option String → Option String
  | none => none
  | some r => RESULT_TO_TYPE? r

/-- One entry of the `categories` list built by `get_result_data`. -/
structure ResultCategory where
  code : String
  name : String
  count : Int
deriving DecidableEq

/-- The aggregate `{'categories': [...], 'total': ...}` dict. -/
structure ResultData where
  categories : List ResultCategory
  total : Int
deriving DecidableEq

/-- The number of submissions in `subs` with raw result `status`:
one group of `submissions.values('result').annotate(count=Count('result'))`
(line 97). -/
def countResult (subs : List Submission) (status : String) : Int :=
  ((subs.filter (fun s => s.result == some status)).length : Int)

/-- The aggregation core of `get_result_data` (lines 97–106): per-code
counts folded into category totals in taxonomy order, and the grand
total.  `Count('result')` counts non-NULL values, so the total is the
number of submissions with a non-NULL result. -/
def computeResultData (subs : List Submission) : ResultData :=
  { categories := RESULT_TYPES.map (fun t =>
      { code := t.code, name := t.name, count := (t.results.map (countResult subs)).sum }),
    total := ((subs.filter (fun s => s.result.isSome)).length : Int) }

/-- `get_result_data(*args, **kwargs)` (lines 90–106).  `args` is the
list of positional arguments (a queryset each), `kwargs` the keyword
filters (each a row predicate), `allSubs` the full submission table
(`Submission.objects`).  Passing both a queryset and keyword filters
raises `ValueError` (source message: "Can~t pass both queryset and
keyword filters"). -/
def get_result_data (args : List (List Submission)) (kwargs : List (Submission → Bool))
    (allSubs : List Submission) : Except String ResultData :=
  match args with
  | qs :: _ =>
    if kwargs.isEmpty then .ok (computeResultData qs)
    else .error "cannot pass both queryset and keyword filters"
  | [] => .ok (computeResultData (kwargs.foldl (fun acc f => acc.filter f) allSubs))

/-- A fan-out event posted on the `submissions` channel with
`type: change-global-stats`. -/
structure Event where
  result_type : String
  delta : Int
deriving DecidableEq

/-- The state `add_to_result_data` reads and writes: the
`global_submission_result_data` cache entry (value and remaining TTL in
seconds) and the list of posted events. -/
structure AggState where
  cache : Option (ResultData × Nat)
  events : List Event
deriving DecidableEq

/-- The `for category in result_data['categories']` loop of
`add_to_result_data` (lines 119–123): add `delta` to the first category
whose code matches, then `break`.  Returns the updated list and whether
a match was found (the `break` was reached), because the source also
adds `delta` to the total inside the matched branch only. -/
def updateCategories (code : String) (delta : Int) :
    List ResultCategory → List ResultCategory × Bool
  | [] => ([], false)
  | c :: rest =>
    if c.code = code then ({ c with count := c.count + delta } :: rest, true)
    else
      let r := updateCategories code delta rest
      (c :: r.1, r.2)

/-- `add_to_result_data(result, delta)` (lines 109–131).  `interval` is
the `settings.GLOBAL_SUBMISSION_STAT_UPDATE_INTERVAL` TTL.  Unmapped
result codes (including NULL) return immediately; a missing (or falsy)
cache entry returns immediately; otherwise the matching category count
and the total are incremented, the entry is re-set with the refreshed
TTL, and one `change-global-stats` event is posted. -/
def add_to_result_data (interval : Nat) (st : AggState) (result : Option String)
    (delta : Int) : AggState :=
  match resultType? result with
  | none => st
  | some code =>
    match st.cache with
    | none => st
    | some (rd, _) =>
      let u := updateCategories code delta rd.categories
      let rd' : ResultData :=
        { categories := u.1, total := rd.total + (if u.2 then delta else 0) }
      { cache := some (rd', interval),
        events := st.events ++ [{ result_type := code, delta := delta }] }

/-! ## Hot-problem ranking engine (`judge/utils/problems.py`, lines 146–178)

The cache-miss computation of `hot_problems(duration, limit)`.  The
window filter `submission__date__gt=timezone.now() - duration` joins
each problem with its submissions inside the trailing window; all the
`Count` annotations range over those joined rows.  The exponential
`e ** (unique_user_count / mx)` is a real-valued function of a rational
argument; it is embedded as an explicit strictly-positive parameter
`expf` so that the surrounding (rational) arithmetic stays exact. -/

/-- `submission__date__gt=timezone.now() - duration` (line 150). -/
def inWindow (now duration : Int) (s : Submission) : Bool :=
  decide (now - duration < s.date)

/-- The submissions of problem `p` inside the trailing window. -/
def problemWindowSubs (subs : List Submission) (now duration : Int) (p : Problem) :
    List Submission :=
  subs.filter (fun s => s.problem.id == p.id && inWindow now duration s)

/-- The base queryset filter of line 150: public, not
organization-private, `3 < points < 25`, and — through the inner join
with the window-filtered submissions — at least one submission in the
window. -/
def isHotCandidate (subs : List Submission) (now duration : Int) (p : Problem) : Bool :=
  p.is_public && !p.is_organization_private &&
    decide ((3 : ℚ) < p.points) && decide (p.points < 25) &&
    !(problemWindowSubs subs now duration p).isEmpty

/-- The candidate problems of the base queryset. -/
def hotCandidates (problems : List Problem) (subs : List Submission) (now duration : Int) :
    List Problem :=
  problems.filter (isHotCandidate subs now duration)

/-- `Count('submission__user', distinct=True)` (lines 151, 158). -/
def unique_user_count (subs : List Submission) (now duration : Int) (p : Problem) : Nat :=
  ((problemWindowSubs subs now duration p).map (fun s => s.userId)).dedup.length

/-- The result codes counted into `submission_volume` (lines 160–168),
in source order; `CE` and NULL are deliberately excluded. -/
def HOT_VOLUME_RESULTS : List String := ["AC", "WA", "IR", "RTE", "TLE", "OLE"]

/-- `submission_volume` (lines 160–168): windowed submissions whose
result is one of `HOT_VOLUME_RESULTS` (the `Case`/`When` count). -/
def submission_volume (subs : List Submission) (now duration : Int) (p : Problem) : Nat :=
  ((problemWindowSubs subs now duration p).filter (fun s =>
    match s.result with
    | some r => HOT_VOLUME_RESULTS.contains r
    | none => false)).length

/-- `ac_volume` (lines 169–172): windowed submissions with result AC. -/
def ac_volume (subs : List Submission) (now duration : Int) (p : Problem) : Nat :=
  ((problemWindowSubs subs now duration p).filter (fun s => s.result == some "AC")).length

/-- Insert `x` into an already `le`-sorted list, before the first
element it is `le`-related to.  When `le` holds both ways on a tie, an
inserted element lands before the tied ones, which makes `sortByKey`
stable. -/
def insertSorted {α : Type} (le : α → α → Bool) (x : α) : List α → List α
  | [] => [x]
  | y :: ys => if le x y then x :: y :: ys else y :: insertSorted le x ys

/-- Stable insertion sort by a boolean comparator: the embedding of an
SQL `ORDER BY`.  Rows tied under `le` keep their underlying order. -/
def sortByKey {α : Type} (le : α → α → Bool) : List α → List α
  | [] => []
  | x :: xs => insertSorted le x (sortByKey le xs)

/-- `qs0` (line 151): the distinct-user counts of the candidates, in
descending order.  `mx = float(qs0[0])` is its head. -/
def hotUserCounts (problems : List Problem) (subs : List Submission) (now duration : Int) :
    List Nat :=
  sortByKey (fun a b => decide (b ≤ a))
    ((hotCandidates problems subs now duration).map (unique_user_count subs now duration))

/-- `mx` (line 156): the head of the descending count list, as a
rational (`float(qs0[0])`); `0` in the empty case, where the source has
already returned `[]`. -/
def hotMx (problems : List Problem) (subs : List Submission) (now duration : Int) : ℚ :=
  match hotUserCounts problems subs now duration with
  | [] => 0
  | k :: _ => (k : ℚ)

/-- The relative-popularity floor (line 173):
`unique_user_count__gt=max(mx / 3.0, 1)`. -/
def survivesFloor (mx : ℚ) (u : Nat) : Bool :=
  decide (max (mx / 3) 1 < (u : ℚ))

/-- The candidates that pass the popularity floor (line 173). -/
def hotSurvivors (problems : List Problem) (subs : List Submission) (now duration : Int) :
    List Problem :=
  (hotCandidates problems subs now duration).filter (fun p =>
    survivesFloor (hotMx problems subs now duration) (unique_user_count subs now duration p))

/-- The `ordering` annotation (line 175):
`0.5 * points * (0.4 * ac_volume / submission_volume + 0.6 * ac_rate)
+ 100 * e ** (unique_user_count / mx)`.  The source does not guard the
division: when `submission_volume` is zero the SQL division by zero
yields NULL (and a NULL score), embedded here as `none`. -/
def ordering? (expf : ℚ → ℚ) (subs : List Submission) (now duration : Int) (mx : ℚ)
    (p : Problem) : Option ℚ :=
  let sv := submission_volume subs now duration p
  let av := ac_volume subs now duration p
  let u := unique_user_count subs now duration p
  if sv = 0 then none
  else some ((0.5 : ℚ) * p.points *
      ((0.4 : ℚ) * (av : ℚ) / (sv : ℚ) + (0.6 : ℚ) * p.ac_rate) +
    100 * expf ((u : ℚ) / mx))

/-- The comparator realized by `order_by('-ordering')`: descending by
score, with a NULL score ordered after every non-NULL score (descending
NULLS LAST, the backend's behavior). -/
def ordGE : Option ℚ → Option ℚ → Bool
  | none, none => true
  | none, some _ => false
  | some _, none => true
  | some a, some b => decide (b ≤ a)

/-- `hot_problems(duration, limit)` (lines 146–178), the cache-miss
computation: the surviving candidates ordered by `order_by('-ordering')`
and truncated to `limit`.  The sort key is the only ordering the source
specifies; equal-keyed rows keep the backend's underlying row order,
embedded as the order of the `problems` list (the sort is stable).  The
source caches the materialized list for 900 seconds under
`hot_problems:%d:%d`; the cache wrapper adds nothing to the computation
and is omitted. -/
def hot_problems (expf : ℚ → ℚ) (problems : List Problem) (subs : List Submission)
    (now duration : Int) (limit : Nat) : List Problem :=
  let mx := hotMx problems subs now duration
  (sortByKey (fun a b =>
      ordGE (ordering? expf subs now duration mx a) (ordering? expf subs now duration mx b))
    (hotSurvivors problems subs now duration)).take limit

/-! ## Rejudge/rescore orchestrator (`judge/admin.py`, `SubmissionAdmin`)

The two permission-gated batch actions.  A caller is embedded as its
permission set plus its profile id; `self.message_user` as an appended
message with an error flag; `model.judge()` as the scheduled submission
id; `submission.save()` as the persisted `(id, points)` pair;
`profile.calculate_points()` as the recalculated profile id;
`cache.delete` as the deleted `CacheKey`. -/

/-- The capabilities `SubmissionAdmin` checks, named after the Django
permissions `judge.rejudge_submission`, `judge.edit_own_problem`,
`judge.edit_all_problem` and `judge.rejudge_submission_lot`. -/
structure Perms where
  rejudge_submission : Bool
  edit_own_problem : Bool
  edit_all_problem : Bool
  rejudge_submission_lot : Bool
deriving DecidableEq

/-- A `message_user` call: its text and whether it was posted at
`messages.ERROR` level. -/
structure Msg where
  text : String
  isError : Bool
deriving DecidableEq

/-- The observable outcome of `SubmissionAdmin.judge`: the messages
posted and the ids of the submissions scheduled for rejudging
(`model.judge()` calls), in call order. -/
structure JudgeOutcome where
  messages : List Msg
  judged : List Nat
deriving DecidableEq

/-- `SubmissionAdmin.judge(request, queryset)` (admin.py lines 308–323).
Gate one: `rejudge_submission` and `edit_own_problem`, else an ERROR
message and return.  The queryset is then ordered by id; gate two: more
than 10 rows without `rejudge_submission_lot` is an ERROR message and
return.  Without `edit_all_problem` the queryset is narrowed to the
caller's authored problems; every remaining submission is scheduled. -/
def submissionAdminJudge (perms : Perms) (callerId : Nat) (queryset : List Submission) :
    JudgeOutcome :=
  if !(perms.rejudge_submission && perms.edit_own_problem) then
    { messages := [⟨"You do not have the permission to rejudge submissions.", true⟩],
      judged := [] }
  else
    let qs := sortByKey (fun a b => decide (a.id ≤ b.id)) queryset
    if qs.length > 10 && !perms.rejudge_submission_lot then
      { messages := [⟨"You do not have the permission to rejudge THAT many submissions.", true⟩],
        judged := [] }
    else
      let qs' := if !perms.edit_all_problem then
        qs.filter (fun s => s.problem.authors.contains callerId) else qs
      { messages := [⟨"submissions were successfully scheduled for rejudging.", false⟩],
        judged := qs'.map (fun s => s.id) }

/-- `round(x, 1)`: rounding to one decimal place, embedded over ℚ. -/
def round1 (q : ℚ) : ℚ := (round (q * 10) : ℚ) / 10

/-- The per-submission rescoring of `recalculate_score` (admin.py lines
348–351): `round(case_points / case_total * problem.points if case_total
else 0, 1)`, then forced to 0 when the problem disallows partial credit
and the computed points fall short of the problem's maximum. -/
def rescorePoints (s : Submission) : ℚ :=
  let p := if s.case_total ≠ 0 then round1 (s.case_points / s.case_total * s.problem.points)
    else 0
  if !s.problem.partialCredit && decide (p < s.problem.points) then 0 else p

/-- The observable outcome of `SubmissionAdmin.recalculate_score`: the
messages posted, the persisted `(submission id, points)` pairs, the
profiles whose `calculate_points` ran, and the cache keys deleted. -/
structure RescoreOutcome where
  messages : List Msg
  saved : List (Nat × ℚ)
  recalculatedProfiles : List Nat
  deletedKeys : List CacheKey
deriving DecidableEq

/-- `SubmissionAdmin.recalculate_score(request, queryset)` (admin.py
lines 341–360).  Gate: `rejudge_submission` only, else an ERROR message
and return.  Every selected submission is rescored and saved; then for
every distinct submitting profile, `calculate_points()` runs and the
`user_complete:%d` cache entry is deleted. -/
def recalculate_score (perms : Perms) (queryset : List Submission) : RescoreOutcome :=
  if !perms.rejudge_submission then
    { messages := [⟨"You do not have the permission to rejudge submissions.", true⟩],
      saved := [], recalculatedProfiles := [], deletedKeys := [] }
  else
    let profiles := (queryset.map (fun s => s.userId)).dedup
    { messages := [⟨"submissions were successfully rescored.", false⟩],
      saved := queryset.map (fun s => (s.id, rescorePoints s)),
      recalculatedProfiles := profiles,
      deletedKeys := profiles.map CacheKey.userComplete }

/-! ## Concrete sample data

Small concrete rows used by counterexamples and witnesses. -/

/-- A public mid-difficulty problem (10 points, partial credit, accept
rate 1/2) with the given id. -/
def sampleProblem (i : Nat) : Problem :=
  { id := i, points := 10, partialCredit := true, ac_rate := 1,
    is_public := true, is_organization_private := false, authors := [] }

/-- An accepted submission inside the trailing window (`date := 5`). -/
def sampleAC (sid uid pid : Nat) : Submission :=
  { id := sid, userId := uid, problem := sampleProblem pid, result := some "AC",
    points := 0, case_points := 0, case_total := 0, date := 5 }

/-- A compile-error submission inside the trailing window. -/
def sampleCE (sid uid pid : Nat) : Submission :=
  { id := sid, userId := uid, problem := sampleProblem pid, result := some "CE",
    points := 0, case_points := 0, case_total := 0, date := 5 }

/-- Two problems with identical statistics, listed with the larger id
first: the backend row order the tie-break claims are tested against. -/
def twoProblems : List Problem := [sampleProblem 2, sampleProblem 1]

/-- The same two problems in the opposite underlying order. -/
def twoProblemsRev : List Problem := [sampleProblem 1, sampleProblem 2]

/-- Two users accept each of problems 1 and 2: identical statistics,
hence tied ordering scores. -/
def tiedSubs : List Submission :=
  [sampleAC 1 1 1, sampleAC 2 2 1, sampleAC 3 1 2, sampleAC 4 2 2]

/-- A single candidate problem. -/
def oneProblem : List Problem := [sampleProblem 7]

/-- Two distinct users accept problem 7: `mx = 2`. -/
def twoUserSubs : List Submission := [sampleAC 1 1 7, sampleAC 2 2 7]

/-- Five distinct users each compile-error on problem 7: `mx = 5`, but
every windowed submission is a CE, so `submission_volume = 0`. -/
def ceOnlySubs : List Submission :=
  [sampleCE 1 1 7, sampleCE 2 2 7, sampleCE 3 3 7, sampleCE 4 4 7, sampleCE 5 5 7]

/-- A 100-point problem that disallows partial credit. -/
def strictProblem : Problem :=
  { id := 9, points := 100, partialCredit := false, ac_rate := 0,
    is_public := true, is_organization_private := false, authors := [] }

/-- A submission to `strictProblem` passing 80 of 100 case points. -/
def strictSub : Submission :=
  { id := 9, userId := 3, problem := strictProblem, result := some "AC",
    points := 0, case_points := 80, case_total := 100, date := 0 }

/-- A concrete exponential stand-in for counterexamples about parts of
`hot_problems` that do not depend on the exponential term's values. -/
def zeroExp : ℚ → ℚ := fun _ => 0

/-- The same submission against the same problem with partial credit
allowed. -/
def lenientSub : Submission :=
  { strictSub with problem := { strictProblem with partialCredit := true } }

/-- Eleven accepted submissions by one user: one more than the bulk
rejudge threshold. -/
def elevenSubs : List Submission := (List.range 11).map (fun i => sampleAC i 1 1)

/-- The zero-count materialized global breakdown. -/
def zeroAggData : ResultData :=
  { categories := RESULT_TYPES.map (fun t => ⟨t.code, t.name, 0⟩), total := 0 }

/-- The aggregator state holding `zeroAggData` with some remaining TTL
and no events posted yet. -/
def zeroAggState : AggState :=
  { cache := some (zeroAggData, 50), events := [] }

/-!  ## Theorems  -/

theorem mem_insertSorted {α : Type} (le : α → α → Bool) (x z : α) :
    ∀ (l : List α), z ∈ insertSorted le x l ↔ z = x ∨ z ∈ l := by
  intro l
  induction l with
  | nil => simp [insertSorted]
  | cons y ys ih =>
    by_cases h : le x y
    · simp [insertSorted, h]
    · simp only [insertSorted, if_neg h, List.mem_cons, ih]
      tauto

theorem mem_sortByKey {α : Type} (le : α → α → Bool) (z : α) :
    ∀ (l : List α), z ∈ sortByKey le l ↔ z ∈ l := by
  intro l
  induction l with
  | nil => simp [sortByKey]
  | cons x xs ih =>
    simp only [sortByKey, mem_insertSorted, ih, List.mem_cons]

theorem length_insertSorted {α : Type} (le : α → α → Bool) (x : α) :
    ∀ (l : List α), (insertSorted le x l).length = l.length + 1 := by
  intro l
  induction l with
  | nil => rfl
  | cons y ys ih =>
    by_cases h : le x y
    · simp [insertSorted, h]
    · simp [insertSorted, h, ih]

theorem length_sortByKey {α : Type} (le : α → α → Bool) :
    ∀ (l : List α), (sortByKey le l).length = l.length := by
  intro l
  induction l with
  | nil => rfl
  | cons x xs ih => simp [sortByKey, length_insertSorted, ih]

theorem pairwise_insertSorted {α : Type} (le : α → α → Bool)
    (htotal : ∀ a b, le a b = true ∨ le b a = true)
    (htrans : ∀ a b c, le a b = true → le b c = true → le a c = true) (x : α) :
    ∀ (l : List α), l.Pairwise (fun a b => le a b = true) →
      (insertSorted le x l).Pairwise (fun a b => le a b = true) := by
  intro l
  induction l with
  | nil => intro _; simp [insertSorted]
  | cons y ys ih =>
    intro hp
    rcases List.pairwise_cons.1 hp with ⟨hy, hys⟩
    by_cases h : le x y
    · rw [insertSorted, if_pos h]
      refine List.pairwise_cons.2 ⟨?_, hp⟩
      intro z hz
      rcases List.mem_cons.1 hz with rfl | hz
      · exact h
      · exact htrans x y z h (hy z hz)
    · rw [insertSorted, if_neg h]
      refine List.pairwise_cons.2 ⟨?_, ih hys⟩
      intro z hz
      rcases (mem_insertSorted le x z ys).1 hz with hzx | hz
      · subst hzx
        rcases htotal z y with hxy | hyx
        · exact absurd hxy h
        · exact hyx
      · exact hy z hz

theorem pairwise_sortByKey {α : Type} (le : α → α → Bool)
    (htotal : ∀ a b, le a b = true ∨ le b a = true)
    (htrans : ∀ a b c, le a b = true → le b c = true → le a c = true) :
    ∀ (l : List α), (sortByKey le l).Pairwise (fun a b => le a b = true) := by
  intro l
  induction l with
  | nil => exact List.Pairwise.nil
  | cons x xs ih => exact pairwise_insertSorted le htotal htrans x _ ih

theorem map_updateIf_eq_self (code : String) (delta : Int) :
    ∀ (cats : List ResultCategory), code ∉ cats.map (fun c => c.code) →
      cats.map (fun c => if c.code = code then { c with count := c.count + delta } else c) =
        cats := by
  intro cats
  induction cats with
  | nil => intro _; rfl
  | cons c rest ih =>
    intro h
    simp only [List.map_cons, List.mem_cons] at h
    push_neg at h
    simp only [List.map_cons]
    rw [if_neg (fun hc => h.1 hc.symm), ih h.2]

theorem updateCategories_eq_map (code : String) (delta : Int) :
    ∀ (cats : List ResultCategory), (cats.map (fun c => c.code)).Nodup →
      code ∈ cats.map (fun c => c.code) →
      updateCategories code delta cats =
        (cats.map (fun c => if c.code = code then { c with count := c.count + delta } else c),
          true) := by
  intro cats
  induction cats with
  | nil => intro _ hmem; exact absurd hmem (by simp)
  | cons c rest ih =>
    intro hnd hmem
    simp only [List.map_cons, List.nodup_cons] at hnd
    by_cases hc : c.code = code
    · simp only [updateCategories, if_pos hc, List.map_cons, if_pos hc]
      rw [map_updateIf_eq_self code delta rest (hc ▸ hnd.1)]
    · simp only [List.map_cons, List.mem_cons] at hmem
      rcases hmem with hmem | hmem
      · exact absurd hmem.symm hc
      · simp only [updateCategories, if_neg hc, List.map_cons, if_neg hc]
        rw [ih hnd.2 hmem]

theorem code_mem_of_lookup {r c : String} (h : RESULT_TO_TYPE? r = some c) :
    c ∈ RESULT_TYPES.map (fun t => t.code) := by
  unfold RESULT_TO_TYPE? at h
  cases hf : RESULT_TYPES.find? (fun t => t.results.contains r) with
  | none => rw [hf] at h; simp at h
  | some t =>
    rw [hf] at h
    have ht : t.code = c := by simpa using h
    exact ht ▸ List.mem_map_of_mem _ (List.mem_of_find?_eq_some hf)

/-- C10: `get_result_data` called with both a positional queryset and at
least one keyword filter raises `ValueError` and returns no breakdown;
calls with only a queryset, only keyword filters, or neither proceed
normally and return a breakdown. -/
theorem claim_C10_get_result_data :
    (∀ (qs : List Submission) (rest : List (List Submission)) (k : Submission → Bool)
        (ks : List (Submission → Bool)) (allSubs : List Submission),
      get_result_data (qs :: rest) (k :: ks) allSubs =
        .error "cannot pass both queryset and keyword filters") ∧
    (∀ (qs : List Submission) (rest : List (List Submission)) (allSubs : List Submission),
      get_result_data (qs :: rest) [] allSubs = .ok (computeResultData qs)) ∧
    (∀ (kwargs : List (Submission → Bool)) (allSubs : List Submission),
      get_result_data [] kwargs allSubs =
        .ok (computeResultData (kwargs.foldl (fun acc f => acc.filter f) allSubs))) :=
  ⟨fun _ _ _ _ _ => rfl, fun _ _ _ => rfl, fun _ _ => rfl⟩

/-- C9: the completed-ids queries return exactly the distinct problem
ids for which some submission of the identity has result AC and points
equal to the problem's maximum points, each id at most once — for user
profiles and for contest participations alike. -/
theorem claim_C9_completed_ids :
    (∀ (profile : Nat) (subs : List Submission) (pid : Nat),
      pid ∈ user_completed_ids profile subs ↔
        ∃ s ∈ subs, s.userId = profile ∧ s.result = some "AC" ∧
          s.points = s.problem.points ∧ s.problem.id = pid) ∧
    (∀ (profile : Nat) (subs : List Submission), (user_completed_ids profile subs).Nodup) ∧
    (∀ (participation : Nat) (csubs : List ContestSubmission) (pid : Nat),
      pid ∈ contest_completed_ids participation csubs ↔
        ∃ cs ∈ csubs, cs.participationId = participation ∧ cs.result = some "AC" ∧
          cs.points = cs.problemPoints ∧ cs.problemId = pid) ∧
    (∀ (participation : Nat) (csubs : List ContestSubmission),
      (contest_completed_ids participation csubs).Nodup) := by
  refine ⟨fun profile subs pid => ?_, fun _ _ => List.nodup_dedup _,
    fun participation csubs pid => ?_, fun _ _ => List.nodup_dedup _⟩
  · simp only [user_completed_ids, List.mem_dedup, List.mem_map, List.mem_filter,
      decide_eq_true_iff]
    constructor
    · rintro ⟨s, ⟨hs, h1, h2, h3⟩, h4⟩
      exact ⟨s, hs, h1, h2, h3, h4⟩
    · rintro ⟨s, hs, h1, h2, h3, h4⟩
      exact ⟨s, ⟨hs, h1, h2, h3⟩, h4⟩
  · simp only [contest_completed_ids, List.mem_dedup, List.mem_map, List.mem_filter,
      decide_eq_true_iff]
    constructor
    · rintro ⟨cs, ⟨hs, h1, h2, h3⟩, h4⟩
      exact ⟨cs, hs, h1, h2, h3, h4⟩
    · rintro ⟨cs, hs, h1, h2, h3, h4⟩
      exact ⟨cs, ⟨hs, h1, h2, h3⟩, h4⟩

/-- C9 witness: the spec's synthetic history — user 1 submits to
problem 5 (max 5 points) with points 3, then 5 twice, one of the
5-point submissions accepted; problem 5 is in the completed set. -/
theorem claim_C9_completed_ids_witness :
    5 ∈ user_completed_ids 1
      [{ id := 1, userId := 1, problem := { sampleProblem 5 with points := 5 },
         result := some "WA", points := 3, case_points := 3, case_total := 5, date := 0 },
       { id := 2, userId := 1, problem := { sampleProblem 5 with points := 5 },
         result := some "AC", points := 5, case_points := 5, case_total := 5, date := 1 },
       { id := 3, userId := 1, problem := { sampleProblem 5 with points := 5 },
         result := some "IE", points := 5, case_points := 5, case_total := 5, date := 2 }] :=
  (claim_C9_completed_ids.1 1 _ 5).mpr
    ⟨{ id := 2, userId := 1, problem := { sampleProblem 5 with points := 5 },
       result := some "AC", points := 5, case_points := 5, case_total := 5, date := 1 },
      by decide, by decide, by decide, by decide, by decide⟩

/-- C7: on a materialized cached breakdown, `add_to_result_data` with a
categorized result code adds the delta to exactly the matching category
and to the total, re-persists the aggregate with the refreshed TTL, and
posts exactly one event carrying the category code and the delta; with
an uncategorized (or NULL) result code the state is left unchanged. -/
theorem claim_C7_apply_delta :
    (∀ (interval : Nat) (rd : ResultData) (ttl : Nat) (evs : List Event)
        (r c : String) (delta : Int),
      RESULT_TO_TYPE? r = some c →
      rd.categories.map (fun cat => cat.code) = RESULT_TYPES.map (fun t => t.code) →
      add_to_result_data interval ⟨some (rd, ttl), evs⟩ (some r) delta =
        ⟨some ({ categories := rd.categories.map (fun cat =>
                   if cat.code = c then { cat with count := cat.count + delta } else cat),
                 total := rd.total + delta }, interval),
          evs ++ [⟨c, delta⟩]⟩) ∧
    (∀ (interval : Nat) (st : AggState) (r : Option String) (delta : Int),
      resultType? r = none → add_to_result_data interval st r delta = st) := by
  constructor
  · intro interval rd ttl evs r c delta hr hwf
    have hnd : (rd.categories.map (fun cat => cat.code)).Nodup := by
      rw [hwf]; decide
    have hmem : c ∈ rd.categories.map (fun cat => cat.code) := by
      rw [hwf]; exact code_mem_of_lookup hr
    have hres : resultType? (some r) = some c := hr
    simp only [add_to_result_data, hres, updateCategories_eq_map c delta rd.categories
      hnd hmem, if_pos]
  · intro interval st r delta hr
    simp only [add_to_result_data, hr]

/-- C7 witness: the spec's delta-consistency example — from a breakdown
with AC 10, WA 5, total 15, applying a +1 AC delta yields AC 11, WA 5,
total 16 with a refreshed TTL and a single posted event; a delta for the
uncategorized NULL code leaves the state unchanged. -/
theorem claim_C7_apply_delta_witness :
    add_to_result_data 300
        ⟨some (⟨[⟨"AC", "Accepted", 10⟩, ⟨"WA", "Wrong", 5⟩, ⟨"CE", "Compile Error", 0⟩,
          ⟨"TLE", "Timeout", 0⟩, ⟨"ERR", "Error", 0⟩], 15⟩, 50), []⟩ (some "AC") 1 =
      ⟨some (⟨[⟨"AC", "Accepted", 11⟩, ⟨"WA", "Wrong", 5⟩, ⟨"CE", "Compile Error", 0⟩,
        ⟨"TLE", "Timeout", 0⟩, ⟨"ERR", "Error", 0⟩], 16⟩, 300), [⟨"AC", 1⟩]⟩ ∧
    add_to_result_data 300 zeroAggState none 1 = zeroAggState :=
  ⟨(claim_C7_apply_delta.1 300 ⟨[⟨"AC", "Accepted", 10⟩, ⟨"WA", "Wrong", 5⟩,
      ⟨"CE", "Compile Error", 0⟩, ⟨"TLE", "Timeout", 0⟩, ⟨"ERR", "Error", 0⟩], 15⟩ 50 []
      "AC" "AC" 1 (by decide) (by decide)).trans (by decide),
    claim_C7_apply_delta.2 300 zeroAggState none 1 (by decide)⟩

/-- C2 counterexample: the aggregator does not clamp.  Starting from the
materialized all-zero breakdown, `apply_delta('AC', -1)` drives the AC
count and the total to -1, strictly below zero. -/
theorem claim_C2_counterexample :
    add_to_result_data 300 zeroAggState (some "AC") (-1) =
      ⟨some (⟨[⟨"AC", "Accepted", -1⟩, ⟨"WA", "Wrong", 0⟩, ⟨"CE", "Compile Error", 0⟩,
        ⟨"TLE", "Timeout", 0⟩, ⟨"ERR", "Error", 0⟩], -1⟩, 300), [⟨"AC", -1⟩]⟩ ∧
    (-1 : Int) < 0 := by
  constructor
  · decide
  · decide

/-- C2 (amended): `apply_delta` performs plain unclamped addition — on a
materialized breakdown the matching category count becomes exactly
`count + delta` and the total exactly `total + delta`, with no lower
bound, so a negative delta larger in magnitude than the current count
makes them negative. -/
theorem claim_C2_unclamped_delta :
    ∀ (interval : Nat) (a w ce tl er tot : Int) (ttl : Nat) (evs : List Event) (delta : Int),
      add_to_result_data interval
          ⟨some (⟨[⟨"AC", "Accepted", a⟩, ⟨"WA", "Wrong", w⟩, ⟨"CE", "Compile Error", ce⟩,
            ⟨"TLE", "Timeout", tl⟩, ⟨"ERR", "Error", er⟩], tot⟩, ttl), evs⟩ (some "AC") delta =
        ⟨some (⟨[⟨"AC", "Accepted", a + delta⟩, ⟨"WA", "Wrong", w⟩, ⟨"CE", "Compile Error", ce⟩,
          ⟨"TLE", "Timeout", tl⟩, ⟨"ERR", "Error", er⟩], tot + delta⟩, interval),
          evs ++ [⟨"AC", delta⟩]⟩ :=
  fun _ _ _ _ _ _ _ _ _ _ => rfl

theorem ordGE_total : ∀ (a b : Option ℚ), ordGE a b = true ∨ ordGE b a = true := by
  intro a b
  cases a <;> cases b <;> simp [ordGE]
  exact le_total _ _

theorem ordGE_trans : ∀ (a b c : Option ℚ),
    ordGE a b = true → ordGE b c = true → ordGE a c = true := by
  intro a b c hab hbc
  cases a <;> cases b <;> cases c <;> simp [ordGE] at *
  exact le_trans hbc hab

/-- C3 (amended): the ordering-score division is not guarded — for every
candidate whose `submission_volume` inside the window is zero, the
ordering expression produces no score at all (the division by zero
propagates as a NULL score), rather than a score with the quality term
replaced by zero. -/
theorem claim_C3_null_score :
    ∀ (expf : ℚ → ℚ) (subs : List Submission) (now duration : Int) (mx : ℚ) (p : Problem),
      submission_volume subs now duration p = 0 →
      ordering? expf subs now duration mx p = none := by
  intro expf subs now duration mx p h
  simp [ordering?, h]

/-- C3 witness: problem 7 — five distinct users, all compile errors —
has windowed submission volume zero and gets a NULL ordering score. -/
theorem claim_C3_null_score_witness :
    submission_volume ceOnlySubs 10 100 (sampleProblem 7) = 0 ∧
    ordering? zeroExp ceOnlySubs 10 100 (hotMx oneProblem ceOnlySubs 10 100)
      (sampleProblem 7) = none :=
  ⟨by decide, claim_C3_null_score zeroExp ceOnlySubs 10 100
    (hotMx oneProblem ceOnlySubs 10 100) (sampleProblem 7) (by decide)⟩

/-- C3 counterexample: the division-by-zero case is reachable for a
candidate that survives the popularity floor.  With five distinct users
all compile-erroring on problem 7, the problem survives the floor
(`mx = 5`, `unique_user_count = 5 > max(5/3, 1)`), its
`submission_volume` is zero, and its ordering score is NULL — not the
claimed zero-substituted value, so the division is neither unreachable
nor guarded. -/
theorem claim_C3_counterexample :
    hotSurvivors oneProblem ceOnlySubs 10 100 = [sampleProblem 7] ∧
    submission_volume ceOnlySubs 10 100 (sampleProblem 7) = 0 ∧
    ordering? zeroExp ceOnlySubs 10 100 (hotMx oneProblem ceOnlySubs 10 100)
      (sampleProblem 7) = none := by
  refine ⟨?_, by decide, ?_⟩
  · norm_num [hotSurvivors, hotMx, hotUserCounts, hotCandidates, isHotCandidate,
      unique_user_count, problemWindowSubs, inWindow, survivesFloor, oneProblem, ceOnlySubs,
      sampleProblem, sampleCE, List.filter_cons, List.filter_nil, sortByKey, insertSorted,
      List.dedup_cons_of_not_mem, List.dedup_nil]
  · have h : submission_volume ceOnlySubs 10 100 (sampleProblem 7) = 0 := by decide
    simp [ordering?, h]

/-- C4 (amended): the output of `hot_problems` is sorted descending by
ordering score and truncated to `limit`, and every output element is a
surviving candidate; the source specifies no tie-break, so equal-score
candidates keep the backend's underlying row order (not ascending id). -/
theorem claim_C4_sort_descending :
    ∀ (expf : ℚ → ℚ) (problems : List Problem) (subs : List Submission)
      (now duration : Int) (limit : Nat),
      (hot_problems expf problems subs now duration limit).Pairwise (fun a b =>
        ordGE (ordering? expf subs now duration (hotMx problems subs now duration) a)
          (ordering? expf subs now duration (hotMx problems subs now duration) b) = true) ∧
      (hot_problems expf problems subs now duration limit).length ≤ limit ∧
      ∀ p, p ∈ hot_problems expf problems subs now duration limit →
        p ∈ hotSurvivors problems subs now duration := by
  intro expf problems subs now duration limit
  refine ⟨?_, ?_, ?_⟩
  · exact List.Pairwise.sublist (List.take_sublist _ _)
      (pairwise_sortByKey
        (fun a b =>
          ordGE (ordering? expf subs now duration (hotMx problems subs now duration) a)
            (ordering? expf subs now duration (hotMx problems subs now duration) b))
        (fun a b => ordGE_total _ _)
        (fun a b c hab hbc => ordGE_trans _ _ _ hab hbc)
        (hotSurvivors problems subs now duration))
  · simp only [hot_problems, List.length_take]
    exact Nat.min_le_left _ _
  · intro p hp
    have h1 : p ∈ sortByKey (fun a b =>
        ordGE (ordering? expf subs now duration (hotMx problems subs now duration) a)
          (ordering? expf subs now duration (hotMx problems subs now duration) b))
        (hotSurvivors problems subs now duration) :=
      List.Sublist.mem hp (List.take_sublist _ _)
    exact (mem_sortByKey _ _ _).1 h1

/-- C4 witness: at the concrete tied dataset the output is score-sorted,
within the limit, and drawn from the surviving candidates. -/
theorem claim_C4_sort_descending_witness :
    (hot_problems zeroExp twoProblems tiedSubs 10 100 100).length ≤ 100 ∧
    sampleProblem 2 ∈ hotSurvivors twoProblems tiedSubs 10 100 :=
  ⟨(claim_C4_sort_descending zeroExp twoProblems tiedSubs 10 100 100).2.1,
    (claim_C4_sort_descending zeroExp twoProblems tiedSubs 10 100 100).2.2
      (sampleProblem 2) (by
        have hs : hotSurvivors twoProblems tiedSubs 10 100 =
            [sampleProblem 2, sampleProblem 1] := by
          norm_num [hotSurvivors, hotMx, hotUserCounts, hotCandidates, isHotCandidate,
            unique_user_count, problemWindowSubs, inWindow, survivesFloor, twoProblems,
            tiedSubs, sampleProblem, sampleAC, List.filter_cons, List.filter_nil, sortByKey,
            insertSorted, List.dedup_cons_of_not_mem, List.dedup_nil]
        have hmx : hotMx twoProblems tiedSubs 10 100 = 2 := by
          norm_num [hotMx, hotUserCounts, hotCandidates, isHotCandidate, unique_user_count,
            problemWindowSubs, inWindow, twoProblems, tiedSubs, sampleProblem, sampleAC,
            List.filter_cons, List.filter_nil, sortByKey, insertSorted,
            List.dedup_cons_of_not_mem, List.dedup_nil]
        have h2 : ordering? zeroExp tiedSubs 10 100 2 (sampleProblem 2) = some 5 := by
          norm_num [ordering?, ac_volume, submission_volume, unique_user_count,
            problemWindowSubs, inWindow, tiedSubs, sampleProblem, sampleAC, zeroExp,
            HOT_VOLUME_RESULTS, List.filter_cons, List.filter_nil,
            List.dedup_cons_of_not_mem, List.dedup_nil]
        have h1 : ordering? zeroExp tiedSubs 10 100 2 (sampleProblem 1) = some 5 := by
          norm_num [ordering?, ac_volume, submission_volume, unique_user_count,
            problemWindowSubs, inWindow, tiedSubs, sampleProblem, sampleAC, zeroExp,
            HOT_VOLUME_RESULTS, List.filter_cons, List.filter_nil,
            List.dedup_cons_of_not_mem, List.dedup_nil]
        rw [hot_problems, hmx, hs]
        simp only [sortByKey, insertSorted, h1, h2, ordGE]
        norm_num)⟩

/-- C4 counterexample: problems 1 and 2 have identical windowed
statistics, hence exactly tied ordering scores; with the backend row
order listing problem 2 first, the output is `[2, 1]` — not the claimed
ascending-id order — and reversing the (set-equal) underlying row order
reverses the output, so the ranking is not a deterministic function of
the underlying data set. -/
theorem claim_C4_counterexample :
    ordering? zeroExp tiedSubs 10 100 2 (sampleProblem 2) =
      ordering? zeroExp tiedSubs 10 100 2 (sampleProblem 1) ∧
    hotMx twoProblems tiedSubs 10 100 = 2 ∧
    (hot_problems zeroExp twoProblems tiedSubs 10 100 100).map (fun p => p.id) = [2, 1] ∧
    (hot_problems zeroExp twoProblemsRev tiedSubs 10 100 100).map (fun p => p.id) = [1, 2] := by
  have h2 : ordering? zeroExp tiedSubs 10 100 2 (sampleProblem 2) = some 5 := by
    norm_num [ordering?, ac_volume, submission_volume, unique_user_count, problemWindowSubs,
      inWindow, tiedSubs, sampleProblem, sampleAC, zeroExp, HOT_VOLUME_RESULTS,
      List.filter_cons, List.filter_nil, List.dedup_cons_of_not_mem, List.dedup_nil]
  have h1 : ordering? zeroExp tiedSubs 10 100 2 (sampleProblem 1) = some 5 := by
    norm_num [ordering?, ac_volume, submission_volume, unique_user_count, problemWindowSubs,
      inWindow, tiedSubs, sampleProblem, sampleAC, zeroExp, HOT_VOLUME_RESULTS,
      List.filter_cons, List.filter_nil, List.dedup_cons_of_not_mem, List.dedup_nil]
  have hmxA : hotMx twoProblems tiedSubs 10 100 = 2 := by
    norm_num [hotMx, hotUserCounts, hotCandidates, isHotCandidate, unique_user_count,
      problemWindowSubs, inWindow, twoProblems, tiedSubs, sampleProblem, sampleAC,
      List.filter_cons, List.filter_nil, sortByKey, insertSorted,
      List.dedup_cons_of_not_mem, List.dedup_nil]
  have hmxB : hotMx twoProblemsRev tiedSubs 10 100 = 2 := by
    norm_num [hotMx, hotUserCounts, hotCandidates, isHotCandidate, unique_user_count,
      problemWindowSubs, inWindow, twoProblemsRev, tiedSubs, sampleProblem, sampleAC,
      List.filter_cons, List.filter_nil, sortByKey, insertSorted,
      List.dedup_cons_of_not_mem, List.dedup_nil]
  have hsA : hotSurvivors twoProblems tiedSubs 10 100 =
      [sampleProblem 2, sampleProblem 1] := by
    norm_num [hotSurvivors, hotMx, hotUserCounts, hotCandidates, isHotCandidate,
      unique_user_count, problemWindowSubs, inWindow, survivesFloor, twoProblems, tiedSubs,
      sampleProblem, sampleAC, List.filter_cons, List.filter_nil, sortByKey, insertSorted,
      List.dedup_cons_of_not_mem, List.dedup_nil]
  have hsB : hotSurvivors twoProblemsRev tiedSubs 10 100 =
      [sampleProblem 1, sampleProblem 2] := by
    norm_num [hotSurvivors, hotMx, hotUserCounts, hotCandidates, isHotCandidate,
      unique_user_count, problemWindowSubs, inWindow, survivesFloor, twoProblemsRev,
      tiedSubs, sampleProblem, sampleAC, List.filter_cons, List.filter_nil, sortByKey,
      insertSorted, List.dedup_cons_of_not_mem, List.dedup_nil]
  refine ⟨h2.trans h1.symm, hmxA, ?_, ?_⟩
  · rw [hot_problems, hmxA, hsA]
    simp only [sortByKey, insertSorted, h1, h2, ordGE]
    norm_num [sampleProblem]
  · rw [hot_problems, hmxB, hsB]
    simp only [sortByKey, insertSorted, h1, h2, ordGE]
    norm_num [sampleProblem]

/-- C5 (amended): the floor the source applies is
`max(mx/3, 1) < unique_user_count`.  Hence every candidate with
`unique_user_count ≤ mx/3` is excluded (the claim's first part), `mx` is
the maximum unique-user count over the candidates, but when `mx ≤ 3` the
floor is 1, so only candidates with at most one unique user are dropped
and the ranking need not be empty. -/
theorem claim_C5_popularity_floor :
    (∀ (expf : ℚ → ℚ) (problems : List Problem) (subs : List Submission)
        (now duration : Int) (limit : Nat) (p : Problem),
      (unique_user_count subs now duration p : ℚ) ≤ hotMx problems subs now duration / 3 →
      p ∉ hot_problems expf problems subs now duration limit) ∧
    (∀ (expf : ℚ → ℚ) (problems : List Problem) (subs : List Submission)
        (now duration : Int) (limit : Nat) (p : Problem),
      (unique_user_count subs now duration p : ℚ) ≤
          max (hotMx problems subs now duration / 3) 1 →
      p ∉ hot_problems expf problems subs now duration limit) ∧
    (∀ (problems : List Problem) (subs : List Submission) (now duration : Int) (p : Problem),
      p ∈ hotCandidates problems subs now duration →
      (unique_user_count subs now duration p : ℚ) ≤ hotMx problems subs now duration) ∧
    (∀ (problems : List Problem) (subs : List Submission) (now duration : Int) (p : Problem),
      hotMx problems subs now duration ≤ 3 →
      (p ∈ hotSurvivors problems subs now duration ↔
        p ∈ hotCandidates problems subs now duration ∧
          2 ≤ unique_user_count subs now duration p)) := by
  have hfloor : ∀ (expf : ℚ → ℚ) (problems : List Problem) (subs : List Submission)
      (now duration : Int) (limit : Nat) (p : Problem),
      (unique_user_count subs now duration p : ℚ) ≤
          max (hotMx problems subs now duration / 3) 1 →
      p ∉ hot_problems expf problems subs now duration limit := by
    intro expf problems subs now duration limit p hle hp
    have h1 : p ∈ hotSurvivors problems subs now duration :=
      (mem_sortByKey _ _ _).1 (List.Sublist.mem hp (List.take_sublist _ _))
    have h2 := (List.mem_filter.1 h1).2
    rw [survivesFloor, decide_eq_true_iff] at h2
    exact absurd h2 (not_lt.2 hle)
  refine ⟨?_, hfloor, ?_, ?_⟩
  · intro expf problems subs now duration limit p hle
    exact hfloor expf problems subs now duration limit p
      (le_trans hle (le_max_left _ _))
  · intro problems subs now duration p hp
    have hmem : unique_user_count subs now duration p ∈
        hotUserCounts problems subs now duration :=
      (mem_sortByKey _ _ _).2 (List.mem_map_of_mem _ hp)
    cases hcounts : hotUserCounts problems subs now duration with
    | nil => rw [hcounts] at hmem; exact absurd hmem (by simp)
    | cons k rest =>
      rw [hcounts] at hmem
      have hk : unique_user_count subs now duration p ≤ k := by
        rcases List.mem_cons.1 hmem with heq | hmem'
        · exact le_of_eq heq
        · have hp' : (k :: rest).Pairwise (fun a b => decide (b ≤ a) = true) := by
            have := pairwise_sortByKey (fun a b : Nat => decide (b ≤ a))
              (fun a b => by rcases Nat.le_total a b with h | h <;> simp [h])
              (fun a b c hab hbc => by
                simp only [decide_eq_true_iff] at *
                exact le_trans hbc hab)
              ((hotCandidates problems subs now duration).map
                (unique_user_count subs now duration))
            rw [hotUserCounts] at hcounts
            rw [← hcounts]
            exact this
          have := List.rel_of_pairwise_cons hp' hmem'
          exact decide_eq_true_iff.1 this
      have hmx : hotMx problems subs now duration = (k : ℚ) := by
        simp [hotMx, hcounts]
      rw [hmx]
      exact_mod_cast hk
  · intro problems subs now duration p hmx
    have hone : max (hotMx problems subs now duration / 3) 1 = 1 := by
      have h3 : hotMx problems subs now duration / 3 ≤ 1 := by linarith
      exact max_eq_right h3
    constructor
    · intro hp
      have h2 := (List.mem_filter.1 hp).2
      rw [survivesFloor, decide_eq_true_iff, hone] at h2
      refine ⟨(List.mem_filter.1 hp).1, ?_⟩
      exact_mod_cast Nat.one_lt_cast.1 h2
    · intro ⟨hc, hu⟩
      refine List.mem_filter.2 ⟨hc, ?_⟩
      rw [survivesFloor, decide_eq_true_iff, hone]
      exact_mod_cast Nat.one_lt_cast.2 hu

/-- C5 witness: at the CE-only dataset, problem 7's unique-user count 5
exceeds neither bound trivially — a problem with unique-user count 0
(no windowed submissions at all) is never in the output, and problem 7,
a candidate, has its count bounded by `mx = 5`. -/
theorem claim_C5_popularity_floor_witness :
    sampleProblem 3 ∉ hot_problems zeroExp oneProblem ceOnlySubs 10 100 100 ∧
    (unique_user_count ceOnlySubs 10 100 (sampleProblem 7) : ℚ) ≤
      hotMx oneProblem ceOnlySubs 10 100 ∧
    (sampleProblem 7 ∈ hotSurvivors oneProblem twoUserSubs 10 100 ↔
      sampleProblem 7 ∈ hotCandidates oneProblem twoUserSubs 10 100 ∧
        2 ≤ unique_user_count twoUserSubs 10 100 (sampleProblem 7)) :=
  ⟨claim_C5_popularity_floor.1 zeroExp oneProblem ceOnlySubs 10 100 100
      (sampleProblem 3) (by
        have hu : unique_user_count ceOnlySubs 10 100 (sampleProblem 3) = 0 := by decide
        have hmx : hotMx oneProblem ceOnlySubs 10 100 = 5 := by
          norm_num [hotMx, hotUserCounts, hotCandidates, isHotCandidate, unique_user_count,
            problemWindowSubs, inWindow, oneProblem, ceOnlySubs, sampleProblem, sampleCE,
            List.filter_cons, List.filter_nil, sortByKey, insertSorted,
            List.dedup_cons_of_not_mem, List.dedup_nil]
        rw [hu, hmx]
        norm_num),
    claim_C5_popularity_floor.2.2.1 oneProblem ceOnlySubs 10 100 (sampleProblem 7)
      (by
        norm_num [hotCandidates, isHotCandidate, problemWindowSubs, inWindow, oneProblem,
          ceOnlySubs, sampleProblem, sampleCE, List.filter_cons, List.filter_nil]),
    claim_C5_popularity_floor.2.2.2 oneProblem twoUserSubs 10 100 (sampleProblem 7)
      (by
        have hmx : hotMx oneProblem twoUserSubs 10 100 = 2 := by
          norm_num [hotMx, hotUserCounts, hotCandidates, isHotCandidate, unique_user_count,
            problemWindowSubs, inWindow, oneProblem, twoUserSubs, sampleProblem, sampleAC,
            List.filter_cons, List.filter_nil, sortByKey, insertSorted,
            List.dedup_cons_of_not_mem, List.dedup_nil]
        rw [hmx]
        norm_num)⟩

/-- C5 counterexample: with two distinct users accepting problem 7, the
maximum unique-user count is `mx = 2 ≤ 3`, yet the candidate survives
the floor `max(2/3, 1) = 1 < 2` and `hot_problems` returns a nonempty
ranking — the claim that every candidate is dropped whenever `mx ≤ 3` is
false. -/
theorem claim_C5_counterexample :
    hotMx oneProblem twoUserSubs 10 100 = 2 ∧
    hot_problems zeroExp oneProblem twoUserSubs 10 100 100 = [sampleProblem 7] := by
  have hs : hotSurvivors oneProblem twoUserSubs 10 100 = [sampleProblem 7] := by
    norm_num [hotSurvivors, hotMx, hotUserCounts, hotCandidates, isHotCandidate,
      unique_user_count, problemWindowSubs, inWindow, survivesFloor, oneProblem, twoUserSubs,
      sampleProblem, sampleAC, List.filter_cons, List.filter_nil, sortByKey, insertSorted,
      List.dedup_cons_of_not_mem, List.dedup_nil]
  refine ⟨?_, ?_⟩
  · norm_num [hotMx, hotUserCounts, hotCandidates, isHotCandidate, unique_user_count,
      problemWindowSubs, inWindow, oneProblem, twoUserSubs, sampleProblem, sampleAC,
      List.filter_cons, List.filter_nil, sortByKey, insertSorted,
      List.dedup_cons_of_not_mem, List.dedup_nil]
  · simp [hot_problems, hs, sortByKey, insertSorted]

/-- C1 (amended): the rejudge action requires both the rejudge and the
edit-own-problem capabilities, plus the bulk capability above 10
selected submissions, and any gate failure produces one ERROR message
and schedules nothing; the rescore action checks only the general
rejudge capability — the edit-own-problem capability is not required —
and with it every selected submission is rescored. -/
theorem claim_C1_authorization :
    (∀ (perms : Perms) (callerId : Nat) (queryset : List Submission),
      perms.rejudge_submission = false ∨ perms.edit_own_problem = false →
      submissionAdminJudge perms callerId queryset =
        ⟨[⟨"You do not have the permission to rejudge submissions.", true⟩], []⟩) ∧
    (∀ (perms : Perms) (callerId : Nat) (queryset : List Submission),
      perms.rejudge_submission = true → perms.edit_own_problem = true →
      queryset.length > 10 → perms.rejudge_submission_lot = false →
      submissionAdminJudge perms callerId queryset =
        ⟨[⟨"You do not have the permission to rejudge THAT many submissions.", true⟩], []⟩) ∧
    (∀ (perms : Perms) (queryset : List Submission),
      perms.rejudge_submission = false →
      recalculate_score perms queryset =
        ⟨[⟨"You do not have the permission to rejudge submissions.", true⟩], [], [], []⟩) ∧
    (∀ (perms : Perms) (queryset : List Submission),
      perms.rejudge_submission = true →
      (recalculate_score perms queryset).saved =
        queryset.map (fun s => (s.id, rescorePoints s)) ∧
      (recalculate_score perms queryset).messages.all (fun m => !m.isError) = true) := by
  refine ⟨?_, ?_, ?_, ?_⟩
  · intro perms callerId queryset h
    rcases h with h | h <;> simp [submissionAdminJudge, h]
  · intro perms callerId queryset h1 h2 hlen h4
    have hl : decide ((sortByKey (fun a b => decide (a.id ≤ b.id)) queryset).length > 10) =
        true := by
      rw [length_sortByKey]
      exact decide_eq_true hlen
    simp [submissionAdminJudge, h1, h2, h4, hl]
  · intro perms queryset h
    simp [recalculate_score, h]
  · intro perms queryset h
    refine ⟨by simp [recalculate_score, h], by simp [recalculate_score, h]⟩

/-- C1 witness: a caller missing the rejudge capability cannot rejudge;
a caller without the bulk capability cannot rejudge 11 submissions; a
caller missing the rejudge capability cannot rescore; and a caller with
only the rejudge capability (no edit-own-problem) rescores
successfully. -/
theorem claim_C1_authorization_witness :
    submissionAdminJudge ⟨false, true, true, true⟩ 1 [] =
      ⟨[⟨"You do not have the permission to rejudge submissions.", true⟩], []⟩ ∧
    submissionAdminJudge ⟨true, true, false, false⟩ 1 elevenSubs =
      ⟨[⟨"You do not have the permission to rejudge THAT many submissions.", true⟩], []⟩ ∧
    recalculate_score ⟨false, true, true, true⟩ [strictSub] =
      ⟨[⟨"You do not have the permission to rejudge submissions.", true⟩], [], [], []⟩ ∧
    (recalculate_score ⟨true, false, false, false⟩ [strictSub]).saved =
      [strictSub].map (fun s => (s.id, rescorePoints s)) :=
  ⟨claim_C1_authorization.1 ⟨false, true, true, true⟩ 1 [] (Or.inl rfl),
    claim_C1_authorization.2.1 ⟨true, true, false, false⟩ 1 elevenSubs rfl rfl
      (by decide) rfl,
    claim_C1_authorization.2.2.1 ⟨false, true, true, true⟩ [strictSub] rfl,
    (claim_C1_authorization.2.2.2 ⟨true, false, false, false⟩ [strictSub] rfl).1⟩

/-- C1 counterexample: a caller holding only the general rejudge
capability — without the edit-own-problem capability the claim says both
operations require — rescores a submission with full side effects (a
persisted score, a recomputed profile, a deleted cache key) and a
success message, so the rescore operation does not require both
capabilities and the missing capability causes no error. -/
theorem claim_C1_counterexample :
    recalculate_score ⟨true, false, false, false⟩ [sampleAC 1 1 1] =
      ⟨[⟨"submissions were successfully rescored.", false⟩], [(1, 0)], [1],
        [CacheKey.userComplete 1]⟩ := by
  norm_num [recalculate_score, rescorePoints, sampleAC, sampleProblem, List.dedup_nil]

/-- C6 (amended): after a rescore batch, exactly the completion-set
cache entry (`user_complete:%d`) of every distinct submitting profile is
invalidated; attempted-set entries (`user_attempted:%s`) are never
deleted. -/
theorem claim_C6_cache_invalidation :
    ∀ (perms : Perms) (queryset : List Submission),
      perms.rejudge_submission = true →
      (recalculate_score perms queryset).deletedKeys =
        ((queryset.map (fun s => s.userId)).dedup).map CacheKey.userComplete ∧
      (∀ s, s ∈ queryset →
        CacheKey.userComplete s.userId ∈ (recalculate_score perms queryset).deletedKeys) ∧
      (∀ pid, CacheKey.userAttempted pid ∉ (recalculate_score perms queryset).deletedKeys) := by
  intro perms queryset h
  have hdel : (recalculate_score perms queryset).deletedKeys =
      ((queryset.map (fun s => s.userId)).dedup).map CacheKey.userComplete := by
    simp [recalculate_score, h]
  refine ⟨hdel, ?_, ?_⟩
  · intro s hs
    rw [hdel]
    exact List.mem_map_of_mem _ (List.mem_dedup.2 (List.mem_map_of_mem _ hs))
  · intro pid hmem
    rw [hdel] at hmem
    rcases List.mem_map.1 hmem with ⟨x, _, hx⟩
    simp at hx

/-- C6 witness: rescoring one submission of profile 3 deletes exactly
that profile's completion-set key; its attempted-set key survives. -/
theorem claim_C6_cache_invalidation_witness :
    (recalculate_score ⟨true, false, false, false⟩ [strictSub]).deletedKeys =
      [CacheKey.userComplete 3] ∧
    CacheKey.userComplete 3 ∈
      (recalculate_score ⟨true, false, false, false⟩ [strictSub]).deletedKeys ∧
    CacheKey.userAttempted 3 ∉
      (recalculate_score ⟨true, false, false, false⟩ [strictSub]).deletedKeys :=
  ⟨(claim_C6_cache_invalidation ⟨true, false, false, false⟩ [strictSub] rfl).1,
    (claim_C6_cache_invalidation ⟨true, false, false, false⟩ [strictSub] rfl).2.1
      strictSub (by simp),
    (claim_C6_cache_invalidation ⟨true, false, false, false⟩ [strictSub] rfl).2.2 3⟩

/-- C6 counterexample: after rescoring user 2's submission, the
completion-set key of profile 2 is deleted but the attempted-set key of
profile 2 is not — the claim that both ID-set cache entries of every
touched identity are invalidated is false. -/
theorem claim_C6_counterexample :
    CacheKey.userComplete 2 ∈
      (recalculate_score ⟨true, true, true, true⟩ [sampleAC 2 2 1]).deletedKeys ∧
    CacheKey.userAttempted 2 ∉
      (recalculate_score ⟨true, true, true, true⟩ [sampleAC 2 2 1]).deletedKeys := by
  refine ⟨?_, ?_⟩ <;>
    simp [recalculate_score, sampleAC, List.dedup_nil]

/-- C8: with the rescore gate passed, every selected submission is
persisted with points computed by the rescoring formula: the scaled
rounded value `round(case_points / case_total * problem.points, 1)` when
`case_total` is nonzero, `0` when `case_total = 0`, and — when the
problem disallows partial credit and the computed points fall strictly
short of the problem's maximum — forced to `0`. -/
theorem claim_C8_rescore_formula :
    ∀ (perms : Perms) (queryset : List Submission) (s : Submission),
      perms.rejudge_submission = true → s ∈ queryset →
      ((s.id, rescorePoints s) ∈ (recalculate_score perms queryset).saved ∧
       (s.case_total = 0 → rescorePoints s = 0) ∧
       (s.case_total ≠ 0 → s.problem.partialCredit = true →
         rescorePoints s = round1 (s.case_points / s.case_total * s.problem.points)) ∧
       (s.case_total ≠ 0 →
         s.problem.points ≤ round1 (s.case_points / s.case_total * s.problem.points) →
         rescorePoints s = round1 (s.case_points / s.case_total * s.problem.points)) ∧
       (s.problem.partialCredit = false →
         (if s.case_total ≠ 0 then round1 (s.case_points / s.case_total * s.problem.points)
           else 0) < s.problem.points →
         rescorePoints s = 0)) := by
  intro perms queryset s hperm hs
  refine ⟨?_, ?_, ?_, ?_, ?_⟩
  · have hsaved : (recalculate_score perms queryset).saved =
        queryset.map (fun t => (t.id, rescorePoints t)) := by
      simp [recalculate_score, hperm]
    rw [hsaved]
    exact List.mem_map_of_mem _ hs
  · intro h0
    simp [rescorePoints, h0]
  · intro hne hpc
    simp [rescorePoints, hne, hpc]
  · intro hne hle
    simp only [rescorePoints]
    rw [if_pos hne, decide_eq_false (not_lt.2 hle)]
    simp
  · intro hpc hlt
    simp only [rescorePoints, hpc]
    rw [decide_eq_true hlt]
    simp

/-- C8 witness: the spec's all-or-nothing example — passing 80 of 100
case points on a 100-point problem rescales to 80 but is forced to 0
when partial credit is disallowed, and stays 80 when it is allowed; the
forced score is what the batch persists. -/
theorem claim_C8_rescore_formula_witness :
    rescorePoints strictSub = 0 ∧
    (9, rescorePoints strictSub) ∈
      (recalculate_score ⟨true, false, false, false⟩ [strictSub]).saved ∧
    rescorePoints lenientSub = 80 := by
  have h := claim_C8_rescore_formula ⟨true, false, false, false⟩ [strictSub] strictSub
    rfl (by simp)
  have h' := claim_C8_rescore_formula ⟨true, false, false, false⟩ [lenientSub] lenientSub
    rfl (by simp)
  refine ⟨?_, h.1, ?_⟩
  · refine h.2.2.2.2 rfl ?_
    norm_num [strictSub, strictProblem, round1, round_eq]
  · have heq := h'.2.2.1 (by norm_num [lenientSub, strictSub]) rfl
    rw [heq]
    norm_num [lenientSub, strictSub, strictProblem, round1, round_eq]

end OnlineJudge
